import Mathlib

/-!
Verification development for the medical-robotics data-platform ETL core
(phase4-redshift). The definitions below are a shallow embedding of the
merge/transform logic in rds_to_redshift_etl.py and
s3_telemetry_to_redshift.py: warehouse tables are lists of rows, dates are
day numbers (Nat), the SQL UPDATE / INSERT ... SELECT statements become list
transformations with the same join and filter structure.
-/

/-! ## Dimension data model (dim_surgeons, dim_robots, dim_facilities) -/

/-- A row of the staging_surgeons temp table, as produced by the extraction
query in load_dimension_surgeons (rds_to_redshift_etl.py lines 108-119). -/
structure SurgeonStage where
  surgeon_id : String
  surgeon_name : String
  specialization : String
  years_experience : Nat
  certification_level : String
  effective_date : Nat
deriving Repr, DecidableEq

/-- A row of the dim_surgeons dimension table. The warehouse-assigned
surrogate key is omitted: the merge statement reads it only through the
LEFT JOIN null test, which the embedding expresses directly. -/
structure SurgeonDim where
  surgeon_id : String
  surgeon_name : String
  specialization : String
  years_experience : Nat
  certification_level : String
  effective_date : Nat
  expiration_date : Option Nat
  is_current : Bool
deriving Repr, DecidableEq

/-- The multiset of surgeon_id values in the staging table (subquery
SELECT surgeon_id FROM staging_surgeons). -/
def stagedSurgeonIds (batch : List SurgeonStage) : List String :=
  batch.map SurgeonStage.surgeon_id

/-- The multiset of (surgeon_name, specialization) pairs in the staging
table (subquery SELECT surgeon_name, specialization FROM staging_surgeons). -/
def stagedSurgeonPairs (batch : List SurgeonStage) : List (String × String) :=
  batch.map (fun s => (s.surgeon_name, s.specialization))

/-- The UPDATE step of the surgeons SCD2 merge (lines 156-164): expire every
current row whose surgeon_id occurs in staging and whose
(surgeon_name, specialization) pair occurs nowhere in staging. The pair
test is a set membership over the whole staging table, exactly as the SQL
NOT IN subquery states it, not a per-key comparison. -/
def expireSurgeons (batch : List SurgeonStage) (today : Nat)
    (dim : List SurgeonDim) : List SurgeonDim :=
  dim.map (fun d =>
    if d.is_current
        && (stagedSurgeonIds batch).contains d.surgeon_id
        && !((stagedSurgeonPairs batch).contains (d.surgeon_name, d.specialization))
    then { d with expiration_date := some (today - 1), is_current := false }
    else d)

/-- The row built by the INSERT select list (lines 171-179): staged
attributes, expiration_date NULL, is_current TRUE. -/
def newSurgeonRow (s : SurgeonStage) : SurgeonDim :=
  { surgeon_id := s.surgeon_id
    surgeon_name := s.surgeon_name
    specialization := s.specialization
    years_experience := s.years_experience
    certification_level := s.certification_level
    effective_date := s.effective_date
    expiration_date := none
    is_current := true }

/-- The INSERT step of the surgeons merge (lines 166-183):
staging LEFT JOIN dim_surgeons on surgeon_id and is_current, keeping join
rows where the dimension side is null or where the
(surgeon_name, specialization) pairs differ. One output row per surviving
join row, as in SQL. -/
def insertSurgeons (batch : List SurgeonStage) (dim : List SurgeonDim) :
    List SurgeonDim :=
  batch.flatMap (fun s =>
    let hits := dim.filter (fun d => d.is_current && d.surgeon_id == s.surgeon_id)
    if hits.isEmpty then [newSurgeonRow s]
    else (hits.filter (fun d =>
      !(d.surgeon_name == s.surgeon_name && d.specialization == s.specialization))).map
        (fun _ => newSurgeonRow s))

/-- The surgeons SCD2 merge (lines 155-184): the UPDATE runs first, the
INSERT then reads the updated table; inserted rows are appended. -/
def mergeSurgeons (batch : List SurgeonStage) (today : Nat)
    (dim : List SurgeonDim) : List SurgeonDim :=
  let dim' := expireSurgeons batch today dim
  dim' ++ insertSurgeons batch dim'

/-- Number of rows of dim_surgeons that are current for a given natural key. -/
def surgeonCurrentCount (dim : List SurgeonDim) (id : String) : Nat :=
  (dim.filter (fun d => d.is_current && d.surgeon_id == id)).length

/-- The SCD2 invariant for dim_surgeons: every natural key present in the
table has exactly one current row. -/
def surgeonInvariant (dim : List SurgeonDim) : Prop :=
  ∀ id ∈ dim.map SurgeonDim.surgeon_id, surgeonCurrentCount dim id = 1

instance : DecidablePred surgeonInvariant := fun dim =>
  List.decidableBAll _ (dim.map SurgeonDim.surgeon_id)

/-- A row of the dim_facilities table, restricted to the columns the merge
and fact-load statements read (facility_key, facility_id, is_current). -/
structure FacilityDim where
  facility_key : Nat
  facility_id : String
  is_current : Bool
deriving Repr, DecidableEq

/-- A row of the staging_robots temp table, as produced by the extraction
query in load_dimension_robots (lines 211-232). Decimal operating hours are
scaled to an integer count of hundredths. -/
structure RobotStage where
  robot_id : String
  robot_serial_number : String
  robot_model : String
  manufacturer : String
  facility_id : String
  install_date : Nat
  software_version : String
  hardware_revision : String
  status : String
  last_maintenance_date : Option Nat
  total_procedures_count : Nat
  total_operating_hours : Nat
  effective_date : Nat
deriving Repr, DecidableEq

/-- A row of the dim_robots dimension table (surrogate key omitted, as for
dim_surgeons; facility_key is the resolved foreign key, nullable). -/
structure RobotDim where
  robot_id : String
  robot_serial_number : String
  robot_model : String
  manufacturer : String
  facility_key : Option Nat
  install_date : Nat
  software_version : String
  hardware_revision : String
  status : String
  last_maintenance_date : Option Nat
  total_procedures_count : Nat
  total_operating_hours : Nat
  effective_date : Nat
  expiration_date : Option Nat
  is_current : Bool
deriving Repr, DecidableEq

/-- The UPDATE step of the robots merge (lines 276-280): expire every
current row whose robot_id occurs in staging, unconditionally — the
statement has no attribute comparison at all. -/
def expireRobots (batch : List RobotStage) (today : Nat)
    (dim : List RobotDim) : List RobotDim :=
  dim.map (fun d =>
    if d.is_current && (batch.map RobotStage.robot_id).contains d.robot_id
    then { d with expiration_date := some (today - 1), is_current := false }
    else d)

/-- The row built by the robots INSERT select list (lines 288-303). -/
def newRobotRow (s : RobotStage) (fk : Option Nat) : RobotDim :=
  { robot_id := s.robot_id
    robot_serial_number := s.robot_serial_number
    robot_model := s.robot_model
    manufacturer := s.manufacturer
    facility_key := fk
    install_date := s.install_date
    software_version := s.software_version
    hardware_revision := s.hardware_revision
    status := s.status
    last_maintenance_date := s.last_maintenance_date
    total_procedures_count := s.total_procedures_count
    total_operating_hours := s.total_operating_hours
    effective_date := s.effective_date
    expiration_date := none
    is_current := true }

/-- The INSERT step of the robots merge (lines 282-305): every staging row
is inserted as a new current version, LEFT JOINed with dim_facilities on
facility_id and is_current to resolve facility_key (null when unmatched).
There is no WHERE clause: no change detection, no exclusion. -/
def insertRobots (batch : List RobotStage) (fac : List FacilityDim) :
    List RobotDim :=
  batch.flatMap (fun s =>
    let hits := fac.filter (fun f => f.is_current && f.facility_id == s.facility_id)
    if hits.isEmpty then [newRobotRow s none]
    else hits.map (fun f => newRobotRow s (some f.facility_key)))

/-- The robots SCD2 merge (lines 274-306): UPDATE, then INSERT appended. -/
def mergeRobots (batch : List RobotStage) (fac : List FacilityDim)
    (today : Nat) (dim : List RobotDim) : List RobotDim :=
  expireRobots batch today dim ++ insertRobots batch fac

/-! ## Concrete inputs exercising the dimension merges -/

/-- A dim_surgeons state with a single current row for key S1. -/
def c1Dim : List SurgeonDim :=
  [{ surgeon_id := "S1", surgeon_name := "Dr. X", specialization := "GS",
     years_experience := 5, certification_level := "BC", effective_date := 100,
     expiration_date := none, is_current := true }]

/-- A staged batch that renames S1 while a second key S2 carries the pair
("Dr. X", "GS") that S1 currently holds. -/
def c1Batch : List SurgeonStage :=
  [{ surgeon_id := "S1", surgeon_name := "Dr. Y", specialization := "GS",
     years_experience := 6, certification_level := "BC", effective_date := 100 },
   { surgeon_id := "S2", surgeon_name := "Dr. X", specialization := "GS",
     years_experience := 3, certification_level := "BC", effective_date := 150 }]

/-- A staged robot row. -/
def c2Robot : RobotStage :=
  { robot_id := "R1", robot_serial_number := "SN1", robot_model := "M1",
    manufacturer := "ACME", facility_id := "F1", install_date := 10,
    software_version := "v1", hardware_revision := "h1", status := "active",
    last_maintenance_date := none, total_procedures_count := 4,
    total_operating_hours := 700, effective_date := 10 }

/-- The dim_robots state after merging the batch [c2Robot] into an empty
dimension table. -/
def c2DimAfterFirst : List RobotDim := mergeRobots [c2Robot] [] 100 []

/-- C1: the surgeons SCD2 merge can leave two current rows for one natural
key. Starting from a state satisfying the invariant, staging a rename of S1
together with an unrelated key S2 that carries S1's old
(surgeon_name, specialization) pair leaves S1 with two current rows: the
cross-key NOT IN pair test fails to expire S1's old row, while the per-key
INSERT join still adds a new version. -/
theorem c1_surgeon_invariant_violation :
    surgeonInvariant c1Dim ∧
    surgeonCurrentCount (mergeSurgeons c1Batch 200 c1Dim) "S1" = 2 := by
  decide

/-- C2: the robots merge is not idempotent. Re-applying the same staged
batch to the state it just produced expires the current row and inserts a
fresh version: the table grows from one row to two and is not equal to the
state after the first application. -/
theorem c2_robot_merge_not_idempotent :
    c2DimAfterFirst.length = 1 ∧
    (mergeRobots [c2Robot] [] 200 c2DimAfterFirst).length = 2 ∧
    mergeRobots [c2Robot] [] 200 c2DimAfterFirst ≠ c2DimAfterFirst := by
  decide

/-! ## C4: what the merge actually compares -/

/-- A current dimension row for S7. -/
def c4Row : SurgeonDim :=
  { surgeon_id := "S7", surgeon_name := "Dr. A", specialization := "GS",
    years_experience := 5, certification_level := "BC", effective_date := 100,
    expiration_date := none, is_current := true }

/-- A staged row for S7 that differs from c4Row only in years_experience. -/
def c4Stage : SurgeonStage :=
  { surgeon_id := "S7", surgeon_name := "Dr. A", specialization := "GS",
    years_experience := 6, certification_level := "BC", effective_date := 100 }

/-- C4 counterexample: a staged surgeon row whose years_experience differs
from the current row's is a no-op — the merge leaves the table unchanged,
with no row closed and no new version inserted, because the comparison uses
only (surgeon_name, specialization), not the full attribute set. -/
theorem c4_years_change_is_noop :
    c4Stage.years_experience ≠ c4Row.years_experience ∧
    mergeSurgeons [c4Stage] 200 [c4Row] = [c4Row] := by
  decide

/-- C4 amended: (i) the surgeons merge is a no-op for a staged key whose
current row agrees on surgeon_name and specialization, regardless of the
other attributes; (ii) it closes the current row and inserts a new version
when surgeon_name or specialization differs; (iii) the robots merge
performs no comparison at all: it closes the current row and inserts a new
version unconditionally. -/
theorem c4_comparison_rule_amended :
    (∀ (s : SurgeonStage) (d : SurgeonDim) (t : Nat),
      d.is_current = true → d.surgeon_id = s.surgeon_id →
      d.surgeon_name = s.surgeon_name → d.specialization = s.specialization →
      mergeSurgeons [s] t [d] = [d]) ∧
    (∀ (s : SurgeonStage) (d : SurgeonDim) (t : Nat),
      d.is_current = true → d.surgeon_id = s.surgeon_id →
      (d.surgeon_name ≠ s.surgeon_name ∨ d.specialization ≠ s.specialization) →
      mergeSurgeons [s] t [d] =
        [{ d with expiration_date := some (t - 1), is_current := false },
         newSurgeonRow s]) ∧
    (∀ (s : RobotStage) (d : RobotDim) (t : Nat),
      d.is_current = true → d.robot_id = s.robot_id →
      mergeRobots [s] [] t [d] =
        [{ d with expiration_date := some (t - 1), is_current := false },
         newRobotRow s none]) := by
  refine ⟨?_, ?_, ?_⟩
  · intro s d t h1 h2 h3 h4
    simp [mergeSurgeons, expireSurgeons, insertSurgeons, stagedSurgeonIds,
      stagedSurgeonPairs, List.contains, h1, h2, h3, h4]
  · intro s d t h1 h2 h3
    by_cases hn : d.surgeon_name = s.surgeon_name
    · have hs : d.specialization ≠ s.specialization := by
        rcases h3 with h | h
        · exact absurd hn h
        · exact h
      simp [mergeSurgeons, expireSurgeons, insertSurgeons, stagedSurgeonIds,
        stagedSurgeonPairs, List.contains, h1, h2, hn, hs]
    · simp [mergeSurgeons, expireSurgeons, insertSurgeons, stagedSurgeonIds,
        stagedSurgeonPairs, List.contains, h1, h2, hn]
  · intro s d t h1 h2
    simp [mergeRobots, expireRobots, insertRobots, List.contains, h1, h2]

/-- C4 amended, witnessed at concrete rows: a years-only change is a no-op,
a name change produces close-plus-insert, and a robot re-stage always
produces close-plus-insert. -/
theorem c4_comparison_rule_amended_witness :
    mergeSurgeons [c4Stage] 200 [c4Row] = [c4Row] ∧
    mergeSurgeons [{ c4Stage with surgeon_name := "Dr. B" }] 200 [c4Row] =
      [{ c4Row with expiration_date := some 199, is_current := false },
       newSurgeonRow { c4Stage with surgeon_name := "Dr. B" }] ∧
    mergeRobots [c2Robot] [] 200 c2DimAfterFirst =
      [{ newRobotRow c2Robot none with expiration_date := some 199, is_current := false },
       newRobotRow c2Robot none] :=
  ⟨c4_comparison_rule_amended.1 c4Stage c4Row 200 rfl rfl rfl rfl,
   c4_comparison_rule_amended.2.1 _ c4Row 200 rfl rfl (Or.inl (by decide)),
   by
    have h := c4_comparison_rule_amended.2.2 c2Robot (newRobotRow c2Robot none) 200 rfl rfl
    simpa [c2DimAfterFirst, mergeRobots, expireRobots, insertRobots] using h⟩

/-! ## Fact data model (fact_procedures, fact_procedure_telemetry) -/

/-- A row of dim_surgeons restricted to the columns the fact load reads
(surgeon_key, surgeon_id, is_current). -/
structure SurgeonKeyRow where
  surgeon_key : Nat
  surgeon_id : String
  is_current : Bool
deriving Repr, DecidableEq

/-- A row of dim_robots restricted to the columns the fact load reads
(robot_key, robot_id, is_current). -/
structure RobotKeyRow where
  robot_key : Nat
  robot_id : String
  is_current : Bool
deriving Repr, DecidableEq

/-- A row of the staging_procedures temp table (rds_to_redshift_etl.py
lines 380-405); ids joined away during extraction are nullable because the
extraction LEFT JOINs may not match. -/
structure ProcStage where
  procedure_id : String
  robot_id : Option String
  surgeon_id : Option String
  facility_id : Option String
  start_date_key : Nat
  start_time_key : Nat
  end_date_key : Option Nat
  end_time_key : Option Nat
  procedure_type : String
  procedure_category : String
  patient_id : String
  patient_age : Option Nat
  patient_gender : Option String
  duration_minutes : Option Nat
  complexity_score : Option Nat
  success_status : Option String
  blood_loss_ml : Option Nat
  complication_level : Option String
  hospital_stay_days : Option Nat
  patient_satisfaction_score : Option Nat
  readmission_30day : Option Bool
  status : String
deriving Repr, DecidableEq

/-- A row of the fact_procedures table (surrogate identity column omitted;
the natural key is procedure_id, the dimension keys are nullable). -/
structure ProcFact where
  procedure_id : String
  robot_key : Option Nat
  surgeon_key : Option Nat
  facility_key : Option Nat
  start_date_key : Nat
  start_time_key : Nat
  end_date_key : Option Nat
  end_time_key : Option Nat
  procedure_type : String
  procedure_category : String
  patient_id : String
  patient_age : Option Nat
  patient_gender : Option String
  duration_minutes : Option Nat
  complexity_score : Option Nat
  success_status : Option String
  blood_loss_ml : Option Nat
  complication_level : Option String
  hospital_stay_days : Option Nat
  patient_satisfaction_score : Option Nat
  readmission_30day : Option Bool
  status : String
deriving Repr, DecidableEq

/-- One side of a LEFT JOIN against a current-dimension lookup: the rows of
the dimension matching the join condition, one output per match, or a
single null when there is no match. -/
def resolveKeys {α : Type} (hits : List α) (key : α → Nat) : List (Option Nat) :=
  if hits.isEmpty then [none] else hits.map (fun r => some (key r))

/-- LEFT JOIN dim_robots r ON s.robot_id = r.robot_id AND r.is_current
(line 453); a null staged id matches nothing. -/
def resolveRobotKeys (dim : List RobotKeyRow) (rid : Option String) : List (Option Nat) :=
  resolveKeys (dim.filter (fun r => r.is_current && some r.robot_id == rid)) RobotKeyRow.robot_key

/-- LEFT JOIN dim_surgeons sg ON s.surgeon_id = sg.surgeon_id AND
sg.is_current (line 454). -/
def resolveSurgeonKeys (dim : List SurgeonKeyRow) (sid : Option String) : List (Option Nat) :=
  resolveKeys (dim.filter (fun d => d.is_current && some d.surgeon_id == sid)) SurgeonKeyRow.surgeon_key

/-- LEFT JOIN dim_facilities f ON s.facility_id = f.facility_id AND
f.is_current (line 455). -/
def resolveFacilityKeys (dim : List FacilityDim) (fid : Option String) : List (Option Nat) :=
  resolveKeys (dim.filter (fun f => f.is_current && some f.facility_id == fid)) FacilityDim.facility_key

/-- The fact row built by the INSERT select list (lines 429-451). -/
def mkProcFact (s : ProcStage) (rk sk fk : Option Nat) : ProcFact :=
  { procedure_id := s.procedure_id
    robot_key := rk
    surgeon_key := sk
    facility_key := fk
    start_date_key := s.start_date_key
    start_time_key := s.start_time_key
    end_date_key := s.end_date_key
    end_time_key := s.end_time_key
    procedure_type := s.procedure_type
    procedure_category := s.procedure_category
    patient_id := s.patient_id
    patient_age := s.patient_age
    patient_gender := s.patient_gender
    duration_minutes := s.duration_minutes
    complexity_score := s.complexity_score
    success_status := s.success_status
    blood_loss_ml := s.blood_loss_ml
    complication_level := s.complication_level
    hospital_stay_days := s.hospital_stay_days
    patient_satisfaction_score := s.patient_satisfaction_score
    readmission_30day := s.readmission_30day
    status := s.status }

/-- The rows the fact_procedures INSERT produces for one staged row
(lines 419-459): excluded entirely when the NOT EXISTS subquery finds the
natural key already in fact_procedures, otherwise one row per combination
of LEFT JOIN matches. -/
def procInsertRows (robots : List RobotKeyRow) (surgeons : List SurgeonKeyRow)
    (facilities : List FacilityDim) (facts : List ProcFact) (s : ProcStage) :
    List ProcFact :=
  if facts.any (fun fp => fp.procedure_id == s.procedure_id) then []
  else
    (resolveRobotKeys robots s.robot_id).flatMap (fun rk =>
      (resolveSurgeonKeys surgeons s.surgeon_id).flatMap (fun sk =>
        (resolveFacilityKeys facilities s.facility_id).map (fun fk =>
          mkProcFact s rk sk fk)))

/-- load_fact_procedures, merge step (lines 419-459): append the produced
rows to fact_procedures. The NOT EXISTS check reads the pre-statement
snapshot of the fact table, as SQL does. -/
def loadFactProcedures (batch : List ProcStage) (robots : List RobotKeyRow)
    (surgeons : List SurgeonKeyRow) (facilities : List FacilityDim)
    (facts : List ProcFact) : List ProcFact :=
  facts ++ batch.flatMap (procInsertRows robots surgeons facilities facts)

/-- A row of fact_procedures restricted to the columns the telemetry load
reads (procedure_key, procedure_id). -/
structure ProcKeyRow where
  procedure_key : Nat
  procedure_id : String
deriving Repr, DecidableEq

/-- A row of the staging_telemetry temp table
(s3_telemetry_to_redshift.py lines 206-227); decimals are scaled to
integers, timestamps kept as their text form. -/
structure TelemetryStage where
  procedure_id : Option String
  timestamp_key : Nat
  sample_timestamp : String
  arm_position_x : Option Int
  arm_position_y : Option Int
  arm_position_z : Option Int
  arm_rotation_x : Option Int
  arm_rotation_y : Option Int
  arm_rotation_z : Option Int
  force_feedback : Option Int
  tool_type : Option String
  tool_active : Bool
  camera_zoom : Option Int
  lighting_level : Option Int
  system_temperature : Option Int
  motor_current : Option Int
  network_latency_ms : Option Int
  video_fps : Option Int
deriving Repr, DecidableEq

/-- A row of the fact_procedure_telemetry table; the natural key is
(procedure_key, sample_timestamp). -/
structure TelemetryFact where
  procedure_key : Nat
  timestamp_key : Nat
  sample_timestamp : String
  arm_position_x : Option Int
  arm_position_y : Option Int
  arm_position_z : Option Int
  arm_rotation_x : Option Int
  arm_rotation_y : Option Int
  arm_rotation_z : Option Int
  force_feedback : Option Int
  tool_type : Option String
  tool_active : Bool
  camera_zoom : Option Int
  lighting_level : Option Int
  system_temperature : Option Int
  motor_current : Option Int
  network_latency_ms : Option Int
  video_fps : Option Int
deriving Repr, DecidableEq

/-- The telemetry fact row built by the INSERT select list (lines 263-281). -/
def mkTelemetryFact (pk : Nat) (st : TelemetryStage) : TelemetryFact :=
  { procedure_key := pk
    timestamp_key := st.timestamp_key
    sample_timestamp := st.sample_timestamp
    arm_position_x := st.arm_position_x
    arm_position_y := st.arm_position_y
    arm_position_z := st.arm_position_z
    arm_rotation_x := st.arm_rotation_x
    arm_rotation_y := st.arm_rotation_y
    arm_rotation_z := st.arm_rotation_z
    force_feedback := st.force_feedback
    tool_type := st.tool_type
    tool_active := st.tool_active
    camera_zoom := st.camera_zoom
    lighting_level := st.lighting_level
    system_temperature := st.system_temperature
    motor_current := st.motor_current
    network_latency_ms := st.network_latency_ms
    video_fps := st.video_fps }

/-- The rows the telemetry INSERT produces for one staged row
(lines 242-290): INNER JOIN fact_procedures on procedure_id — a staged row
with no matching procedure produces nothing — then the NOT EXISTS test on
(procedure_key, sample_timestamp) against the pre-statement fact table. -/
def telemetryInsertRows (fp : List ProcKeyRow) (facts : List TelemetryFact)
    (st : TelemetryStage) : List TelemetryFact :=
  (fp.filter (fun p => some p.procedure_id == st.procedure_id)).filterMap (fun p =>
    if facts.any (fun f =>
        f.procedure_key == p.procedure_key && f.sample_timestamp == st.sample_timestamp)
    then none
    else some (mkTelemetryFact p.procedure_key st))

/-- load_telemetry_to_redshift, merge step (lines 242-290): append the
produced rows to fact_procedure_telemetry. -/
def load_telemetry_to_redshift (staged : List TelemetryStage)
    (fp : List ProcKeyRow) (facts : List TelemetryFact) : List TelemetryFact :=
  facts ++ staged.flatMap (telemetryInsertRows fp facts)

/-- The natural keys of the telemetry fact store. -/
def telemetryNatKeys (facts : List TelemetryFact) : List (Nat × String) :=
  facts.map (fun f => (f.procedure_key, f.sample_timestamp))

/-! ## Lemmas about the fact merges -/

/-- A list of length at most one has no duplicates. -/
theorem nodup_of_length_le_one {α : Type} {l : List α} (h : l.length ≤ 1) :
    l.Nodup := by
  match l with
  | [] => exact List.nodup_nil
  | [a] => simp
  | a :: b :: t => simp at h

/-- A LEFT JOIN side is never empty: it contributes a null when unmatched. -/
theorem resolveKeys_ne_nil {α : Type} (hits : List α) (key : α → Nat) :
    resolveKeys hits key ≠ [] := by
  unfold resolveKeys
  split
  · simp
  · rename_i h
    simpa [List.isEmpty_iff] using h

/-- When the dimension has at most one matching current row, a LEFT JOIN
side has exactly one element. -/
theorem resolveKeys_length {α : Type} (hits : List α) (key : α → Nat)
    (h : hits.length ≤ 1) : (resolveKeys hits key).length = 1 := by
  unfold resolveKeys
  split
  · rfl
  · rename_i hne
    have h1 : hits ≠ [] := by simpa [List.isEmpty_iff] using hne
    have h2 : 0 < hits.length := List.length_pos.mpr h1
    simp only [List.length_map]
    omega

/-- Every row produced for a staged procedure carries that row's natural
key, and is only produced when the key is absent from the fact store. -/
theorem mem_procInsertRows {R : List RobotKeyRow} {S : List SurgeonKeyRow}
    {F : List FacilityDim} {facts : List ProcFact} {s : ProcStage} {x : ProcFact}
    (hx : x ∈ procInsertRows R S F facts s) :
    x.procedure_id = s.procedure_id ∧
    s.procedure_id ∉ facts.map ProcFact.procedure_id := by
  unfold procInsertRows at hx
  split at hx
  · simp at hx
  · rename_i hany
    refine ⟨?_, ?_⟩
    · simp only [List.mem_flatMap, List.mem_map] at hx
      obtain ⟨rk, -, sk, -, fk, -, rfl⟩ := hx
      rfl
    · intro hmem
      apply hany
      simp only [List.mem_map] at hmem
      obtain ⟨fp, hfp, he⟩ := hmem
      simp only [List.any_eq_true]
      exact ⟨fp, hfp, by simp [he]⟩

/-- A staged procedure whose key is absent from the fact store produces at
least one row. -/
theorem procInsertRows_ne_nil {R : List RobotKeyRow} {S : List SurgeonKeyRow}
    {F : List FacilityDim} {facts : List ProcFact} {s : ProcStage}
    (h : s.procedure_id ∉ facts.map ProcFact.procedure_id) :
    procInsertRows R S F facts s ≠ [] := by
  unfold procInsertRows
  rw [if_neg]
  · obtain ⟨rk, hrk⟩ := List.exists_mem_of_ne_nil _ (resolveKeys_ne_nil
      (R.filter (fun r => r.is_current && some r.robot_id == s.robot_id)) RobotKeyRow.robot_key)
    obtain ⟨sk, hsk⟩ := List.exists_mem_of_ne_nil _ (resolveKeys_ne_nil
      (S.filter (fun d => d.is_current && some d.surgeon_id == s.surgeon_id)) SurgeonKeyRow.surgeon_key)
    obtain ⟨fk, hfk⟩ := List.exists_mem_of_ne_nil _ (resolveKeys_ne_nil
      (F.filter (fun f => f.is_current && some f.facility_id == s.facility_id)) FacilityDim.facility_key)
    exact List.ne_nil_of_mem (List.mem_flatMap.mpr ⟨rk, hrk,
      List.mem_flatMap.mpr ⟨sk, hsk, List.mem_map_of_mem _ hfk⟩⟩)
  · simp only [List.any_eq_true, not_exists, not_and]
    intro fp hfp he
    simp only [beq_iff_eq] at he
    exact h (by simpa [List.mem_map] using ⟨fp, hfp, he⟩)

/-- When every dimension has at most one current row per natural key, a
staged procedure produces at most one fact row. -/
theorem procInsertRows_length_le_one {R : List RobotKeyRow}
    {S : List SurgeonKeyRow} {F : List FacilityDim} {facts : List ProcFact}
    {s : ProcStage}
    (hR : ∀ id, (R.filter (fun r => r.is_current && some r.robot_id == id)).length ≤ 1)
    (hS : ∀ id, (S.filter (fun d => d.is_current && some d.surgeon_id == id)).length ≤ 1)
    (hF : ∀ id, (F.filter (fun f => f.is_current && some f.facility_id == id)).length ≤ 1) :
    (procInsertRows R S F facts s).length ≤ 1 := by
  unfold procInsertRows
  split
  · simp
  · obtain ⟨rk, hrk⟩ := List.length_eq_one.mp
      (resolveKeys_length _ RobotKeyRow.robot_key (hR s.robot_id))
    obtain ⟨sk, hsk⟩ := List.length_eq_one.mp
      (resolveKeys_length _ SurgeonKeyRow.surgeon_key (hS s.surgeon_id))
    obtain ⟨fk, hfk⟩ := List.length_eq_one.mp
      (resolveKeys_length _ FacilityDim.facility_key (hF s.facility_id))
    rw [show resolveRobotKeys R s.robot_id = [rk] from hrk,
        show resolveSurgeonKeys S s.surgeon_id = [sk] from hsk,
        show resolveFacilityKeys F s.facility_id = [fk] from hfk]
    simp

/-- Keys of the rows inserted for a batch with distinct natural keys are
distinct, given the dimension at-most-one-current property. -/
theorem procInserted_keys_nodup {R : List RobotKeyRow} {S : List SurgeonKeyRow}
    {F : List FacilityDim} {facts : List ProcFact} {batch : List ProcStage}
    (hB : (batch.map ProcStage.procedure_id).Nodup)
    (hR : ∀ id, (R.filter (fun r => r.is_current && some r.robot_id == id)).length ≤ 1)
    (hS : ∀ id, (S.filter (fun d => d.is_current && some d.surgeon_id == id)).length ≤ 1)
    (hF : ∀ id, (F.filter (fun f => f.is_current && some f.facility_id == id)).length ≤ 1) :
    ((batch.flatMap (procInsertRows R S F facts)).map ProcFact.procedure_id).Nodup := by
  induction batch with
  | nil => simp
  | cons s bs ih =>
    simp only [List.map_cons, List.nodup_cons] at hB
    simp only [List.flatMap_cons, List.map_append]
    rw [List.nodup_append]
    refine ⟨?_, ih hB.2, ?_⟩
    · exact nodup_of_length_le_one
        (by simpa using procInsertRows_length_le_one hR hS hF)
    · intro a ha hb
      simp only [List.mem_map] at ha hb
      obtain ⟨x, hx, rfl⟩ := ha
      obtain ⟨y, hy, hxy⟩ := hb
      obtain ⟨s', hs', hy'⟩ := List.mem_flatMap.mp hy
      have h1 := (mem_procInsertRows hx).1
      have h2 := (mem_procInsertRows hy').1
      apply hB.1
      rw [← h1, ← hxy, h2]
      exact List.mem_map_of_mem _ hs'

/-- The fact_procedures merge preserves distinctness of natural keys. -/
theorem loadFactProcedures_keys_nodup {batch : List ProcStage}
    {R : List RobotKeyRow} {S : List SurgeonKeyRow} {F : List FacilityDim}
    {facts : List ProcFact}
    (hN : (facts.map ProcFact.procedure_id).Nodup)
    (hB : (batch.map ProcStage.procedure_id).Nodup)
    (hR : ∀ id, (R.filter (fun r => r.is_current && some r.robot_id == id)).length ≤ 1)
    (hS : ∀ id, (S.filter (fun d => d.is_current && some d.surgeon_id == id)).length ≤ 1)
    (hF : ∀ id, (F.filter (fun f => f.is_current && some f.facility_id == id)).length ≤ 1) :
    ((loadFactProcedures batch R S F facts).map ProcFact.procedure_id).Nodup := by
  unfold loadFactProcedures
  rw [List.map_append, List.nodup_append]
  refine ⟨hN, procInserted_keys_nodup hB hR hS hF, ?_⟩
  intro a ha hb
  simp only [List.mem_map] at hb
  obtain ⟨x, hx, rfl⟩ := hb
  obtain ⟨s, -, hxs⟩ := List.mem_flatMap.mp hx
  obtain ⟨h1, h2⟩ := mem_procInsertRows hxs
  rw [h1] at ha
  exact h2 ha

/-- Re-running the fact_procedures merge with the same staged batch against
the state the first run produced inserts nothing. -/
theorem loadFactProcedures_rerun (batch : List ProcStage)
    (R : List RobotKeyRow) (S : List SurgeonKeyRow) (F : List FacilityDim)
    (facts : List ProcFact) :
    loadFactProcedures batch R S F (loadFactProcedures batch R S F facts) =
      loadFactProcedures batch R S F facts := by
  have hins : batch.flatMap
      (procInsertRows R S F (loadFactProcedures batch R S F facts)) = [] := by
    rw [List.flatMap_eq_nil_iff]
    intro s hs
    unfold procInsertRows
    rw [if_pos]
    by_cases hin : facts.any (fun fp => fp.procedure_id == s.procedure_id)
    · simp [loadFactProcedures, List.any_append, hin]
    · have hnotmem : s.procedure_id ∉ facts.map ProcFact.procedure_id := by
        intro hmem
        apply hin
        simp only [List.mem_map] at hmem
        obtain ⟨fp, hfp, he⟩ := hmem
        simp only [List.any_eq_true]
        exact ⟨fp, hfp, by simp [he]⟩
      obtain ⟨x, hx⟩ := List.exists_mem_of_ne_nil _
        (procInsertRows_ne_nil (R := R) (S := S) (F := F) hnotmem)
      have hkey := (mem_procInsertRows hx).1
      simp only [loadFactProcedures, List.any_append, Bool.or_eq_true, List.any_eq_true]
      exact Or.inr ⟨x, List.mem_flatMap.mpr ⟨s, hs, hx⟩, by simp [hkey]⟩
  conv_lhs => rw [loadFactProcedures, hins]
  exact List.append_nil _

/-- Every telemetry row inserted for a staged sample comes from a matching
fact_procedures row, carries that row's key and the staged timestamp, and
is only produced when this natural key is absent from the fact store. -/
theorem mem_telemetryInsertRows {fp : List ProcKeyRow}
    {facts : List TelemetryFact} {st : TelemetryStage} {x : TelemetryFact}
    (hx : x ∈ telemetryInsertRows fp facts st) :
    ∃ p ∈ fp, some p.procedure_id = st.procedure_id ∧
      x.procedure_key = p.procedure_key ∧
      x.sample_timestamp = st.sample_timestamp ∧
      (p.procedure_key, st.sample_timestamp) ∉ telemetryNatKeys facts := by
  unfold telemetryInsertRows at hx
  simp only [List.mem_filterMap, List.mem_filter] at hx
  obtain ⟨p, ⟨hpfp, hpid⟩, hopt⟩ := hx
  split at hopt
  · exact absurd hopt (by simp)
  · rename_i hany
    simp only [Option.some.injEq] at hopt
    refine ⟨p, hpfp, by simpa using hpid, ?_, ?_, ?_⟩
    · rw [← hopt]; rfl
    · rw [← hopt]; rfl
    · intro hmem
      apply hany
      simp only [telemetryNatKeys, List.mem_map, Prod.mk.injEq] at hmem
      obtain ⟨f, hf, he1, he2⟩ := hmem
      simp only [List.any_eq_true]
      exact ⟨f, hf, by simp [he1, he2]⟩

/-- When fact_procedures has at most one row per procedure_id, a staged
telemetry sample inserts at most one row. -/
theorem telemetryInsertRows_length_le {fp : List ProcKeyRow}
    {facts : List TelemetryFact} {st : TelemetryStage}
    (hfp : ∀ id, (fp.filter (fun p => some p.procedure_id == id)).length ≤ 1) :
    (telemetryInsertRows fp facts st).length ≤ 1 :=
  le_trans (List.length_filterMap_le _ _) (hfp st.procedure_id)

/-- Natural keys of the telemetry rows inserted for a staged batch with
distinct (procedure_id, sample_timestamp) pairs are distinct, given that
fact_procedures has distinct ids and distinct surrogate keys. -/
theorem telemetryInserted_keys_nodup {fp : List ProcKeyRow}
    {facts : List TelemetryFact} {staged : List TelemetryStage}
    (hpairs : (staged.map (fun st => (st.procedure_id, st.sample_timestamp))).Nodup)
    (hfp : ∀ id, (fp.filter (fun p => some p.procedure_id == id)).length ≤ 1)
    (hkeys : (fp.map ProcKeyRow.procedure_key).Nodup) :
    (telemetryNatKeys (staged.flatMap (telemetryInsertRows fp facts))).Nodup := by
  induction staged with
  | nil => simp [telemetryNatKeys]
  | cons st sts ih =>
    simp only [List.map_cons, List.nodup_cons] at hpairs
    simp only [List.flatMap_cons, telemetryNatKeys, List.map_append]
    rw [List.nodup_append]
    refine ⟨?_, ih hpairs.2, ?_⟩
    · exact nodup_of_length_le_one
        (by simpa using telemetryInsertRows_length_le hfp)
    · intro a ha hb
      simp only [List.mem_map] at ha hb
      obtain ⟨x, hx, rfl⟩ := ha
      obtain ⟨y, hy, hxy⟩ := hb
      obtain ⟨st', hst', hy'⟩ := List.mem_flatMap.mp hy
      obtain ⟨p, hp, hppid, hpk, hpts, -⟩ := mem_telemetryInsertRows hx
      obtain ⟨q, hq, hqpid, hqk, hqts, -⟩ := mem_telemetryInsertRows hy'
      have hkk : q.procedure_key = p.procedure_key := by
        have := congrArg Prod.fst hxy
        simpa [hpk, hqk] using this
      have hts : st'.sample_timestamp = st.sample_timestamp := by
        have := congrArg Prod.snd hxy
        simpa [hpts, hqts] using this
      have hpq : q = p := List.inj_on_of_nodup_map hkeys hq hp hkk
      apply hpairs.1
      have hpid : st'.procedure_id = st.procedure_id := by
        rw [← hppid, ← hqpid, hpq]
      rw [← hpid, ← hts]
      exact List.mem_map_of_mem _ hst'

/-- The telemetry merge preserves distinctness of natural keys. -/
theorem load_telemetry_keys_nodup {staged : List TelemetryStage}
    {fp : List ProcKeyRow} {facts : List TelemetryFact}
    (hN : (telemetryNatKeys facts).Nodup)
    (hpairs : (staged.map (fun st => (st.procedure_id, st.sample_timestamp))).Nodup)
    (hfp : ∀ id, (fp.filter (fun p => some p.procedure_id == id)).length ≤ 1)
    (hkeys : (fp.map ProcKeyRow.procedure_key).Nodup) :
    (telemetryNatKeys (load_telemetry_to_redshift staged fp facts)).Nodup := by
  unfold load_telemetry_to_redshift
  rw [telemetryNatKeys, List.map_append, List.nodup_append]
  refine ⟨hN, telemetryInserted_keys_nodup hpairs hfp hkeys, ?_⟩
  intro a ha hb
  simp only [List.mem_map] at hb
  obtain ⟨x, hx, rfl⟩ := hb
  obtain ⟨st, -, hxs⟩ := List.mem_flatMap.mp hx
  obtain ⟨p, -, -, hpk, hpts, habs⟩ := mem_telemetryInsertRows hxs
  apply habs
  rw [← hpk, ← hpts]
  exact ha

/-- Re-running the telemetry merge with the same staged batch against the
state the first run produced inserts nothing. -/
theorem load_telemetry_rerun (staged : List TelemetryStage)
    (fp : List ProcKeyRow) (facts : List TelemetryFact) :
    load_telemetry_to_redshift staged fp
      (load_telemetry_to_redshift staged fp facts) =
    load_telemetry_to_redshift staged fp facts := by
  have hins : staged.flatMap
      (telemetryInsertRows fp (load_telemetry_to_redshift staged fp facts)) = [] := by
    rw [List.flatMap_eq_nil_iff]
    intro st hst
    unfold telemetryInsertRows
    rw [List.filterMap_eq_nil_iff]
    intro p hp
    rw [if_pos]
    have hpmem : p ∈ fp := List.mem_of_mem_filter hp
    by_cases hin : facts.any (fun f =>
        f.procedure_key == p.procedure_key && f.sample_timestamp == st.sample_timestamp)
    · simp [load_telemetry_to_redshift, List.any_append, hin]
    · have hnew : mkTelemetryFact p.procedure_key st ∈
          staged.flatMap (telemetryInsertRows fp facts) := by
        refine List.mem_flatMap.mpr ⟨st, hst, ?_⟩
        unfold telemetryInsertRows
        simp only [List.mem_filterMap]
        exact ⟨p, hp, by rw [if_neg hin]⟩
      simp only [load_telemetry_to_redshift, List.any_append, Bool.or_eq_true,
        List.any_eq_true]
      exact Or.inr ⟨mkTelemetryFact p.procedure_key st, hnew, by simp [mkTelemetryFact]⟩
  conv_lhs => rw [load_telemetry_to_redshift, hins]
  exact List.append_nil _

/-- A concrete staged procedure row. -/
def c3Proc : ProcStage :=
  { procedure_id := "P1", robot_id := some "R1", surgeon_id := some "S1",
    facility_id := some "F1", start_date_key := 20240101,
    start_time_key := 103000, end_date_key := none, end_time_key := none,
    procedure_type := "t", procedure_category := "c", patient_id := "PAT1",
    patient_age := some 50, patient_gender := some "F",
    duration_minutes := some 90, complexity_score := some 7,
    success_status := some "ok", blood_loss_ml := some 10,
    complication_level := none, hospital_stay_days := some 2,
    patient_satisfaction_score := some 9, readmission_30day := some false,
    status := "completed" }

/-- A concrete staged telemetry row. -/
def c3Tele : TelemetryStage :=
  { procedure_id := some "P1", timestamp_key := 103000,
    sample_timestamp := "2024-01-01 10:30:00", arm_position_x := some 1,
    arm_position_y := none, arm_position_z := none, arm_rotation_x := none,
    arm_rotation_y := none, arm_rotation_z := none, force_feedback := none,
    tool_type := none, tool_active := false, camera_zoom := none,
    lighting_level := none, system_temperature := none, motor_current := none,
    network_latency_ms := none, video_fps := none }

/-- C3: both fact merges exclude staged rows whose natural key already
exists in the fact store; given distinct staged keys and the at-most-one-
current property of the dimension lookups, natural keys stay distinct
after a load, and re-running either merge with the same staged batch
against the state it produced changes nothing. -/
theorem c3_fact_merges_dedup_and_idempotent :
    (∀ (s : ProcStage) (R : List RobotKeyRow) (S : List SurgeonKeyRow)
       (F : List FacilityDim) (facts : List ProcFact),
       s.procedure_id ∈ facts.map ProcFact.procedure_id →
       loadFactProcedures [s] R S F facts = facts) ∧
    (∀ (batch : List ProcStage) (R : List RobotKeyRow) (S : List SurgeonKeyRow)
       (F : List FacilityDim) (facts : List ProcFact),
       (facts.map ProcFact.procedure_id).Nodup →
       (batch.map ProcStage.procedure_id).Nodup →
       (∀ id, (R.filter (fun r => r.is_current && some r.robot_id == id)).length ≤ 1) →
       (∀ id, (S.filter (fun d => d.is_current && some d.surgeon_id == id)).length ≤ 1) →
       (∀ id, (F.filter (fun f => f.is_current && some f.facility_id == id)).length ≤ 1) →
       ((loadFactProcedures batch R S F facts).map ProcFact.procedure_id).Nodup) ∧
    (∀ (batch : List ProcStage) (R : List RobotKeyRow) (S : List SurgeonKeyRow)
       (F : List FacilityDim) (facts : List ProcFact),
       loadFactProcedures batch R S F (loadFactProcedures batch R S F facts) =
         loadFactProcedures batch R S F facts) ∧
    (∀ (st : TelemetryStage) (fp : List ProcKeyRow) (facts : List TelemetryFact),
       (∀ p ∈ fp, some p.procedure_id = st.procedure_id →
         (p.procedure_key, st.sample_timestamp) ∈ telemetryNatKeys facts) →
       load_telemetry_to_redshift [st] fp facts = facts) ∧
    (∀ (staged : List TelemetryStage) (fp : List ProcKeyRow)
       (facts : List TelemetryFact),
       (telemetryNatKeys facts).Nodup →
       (staged.map (fun st => (st.procedure_id, st.sample_timestamp))).Nodup →
       (∀ id, (fp.filter (fun p => some p.procedure_id == id)).length ≤ 1) →
       (fp.map ProcKeyRow.procedure_key).Nodup →
       (telemetryNatKeys (load_telemetry_to_redshift staged fp facts)).Nodup) ∧
    (∀ (staged : List TelemetryStage) (fp : List ProcKeyRow)
       (facts : List TelemetryFact),
       load_telemetry_to_redshift staged fp
         (load_telemetry_to_redshift staged fp facts) =
       load_telemetry_to_redshift staged fp facts) := by
  refine ⟨?_, ?_, ?_, ?_, ?_, ?_⟩
  · intro s R S F facts hmem
    have hany : facts.any (fun fp => fp.procedure_id == s.procedure_id) = true := by
      simp only [List.mem_map] at hmem
      obtain ⟨fp, hfp, he⟩ := hmem
      simp only [List.any_eq_true]
      exact ⟨fp, hfp, by simp [he]⟩
    simp [loadFactProcedures, procInsertRows, hany]
  · intro batch R S F facts hN hB hR hS hF
    exact loadFactProcedures_keys_nodup hN hB hR hS hF
  · intro batch R S F facts
    exact loadFactProcedures_rerun batch R S F facts
  · intro st fp facts hcov
    have hins : telemetryInsertRows fp facts st = [] := by
      unfold telemetryInsertRows
      rw [List.filterMap_eq_nil_iff]
      intro p hp
      obtain ⟨hpfp, hpid⟩ := List.mem_filter.mp hp
      have hpair := hcov p hpfp (by simpa using hpid)
      rw [if_pos]
      simp only [telemetryNatKeys, List.mem_map, Prod.mk.injEq] at hpair
      obtain ⟨f, hf, he1, he2⟩ := hpair
      simp only [List.any_eq_true]
      exact ⟨f, hf, by simp [he1, he2]⟩
    simp [load_telemetry_to_redshift, hins]
  · intro staged fp facts hN hpairs hfp hkeys
    exact load_telemetry_keys_nodup hN hpairs hfp hkeys
  · intro staged fp facts
    exact load_telemetry_rerun staged fp facts

/-- C3, witnessed at concrete inputs: a re-staged procedure whose key is
already loaded is excluded; key distinctness and idempotence hold at a
one-row batch. -/
theorem c3_fact_merges_dedup_and_idempotent_witness :
    loadFactProcedures [c3Proc] [] [] [] [mkProcFact c3Proc none none none] =
      [mkProcFact c3Proc none none none] ∧
    ((loadFactProcedures [c3Proc] [] [] [] []).map ProcFact.procedure_id).Nodup ∧
    loadFactProcedures [c3Proc] [] [] [] (loadFactProcedures [c3Proc] [] [] [] []) =
      loadFactProcedures [c3Proc] [] [] [] [] ∧
    load_telemetry_to_redshift [c3Tele] [] [] = [] ∧
    (telemetryNatKeys (load_telemetry_to_redshift [c3Tele] [] [])).Nodup ∧
    load_telemetry_to_redshift [c3Tele] []
        (load_telemetry_to_redshift [c3Tele] [] []) =
      load_telemetry_to_redshift [c3Tele] [] [] :=
  ⟨c3_fact_merges_dedup_and_idempotent.1 c3Proc [] [] [] _ (by decide),
   c3_fact_merges_dedup_and_idempotent.2.1 [c3Proc] [] [] [] []
     (by simp) (by simp) (fun id => by simp) (fun id => by simp) (fun id => by simp),
   c3_fact_merges_dedup_and_idempotent.2.2.1 [c3Proc] [] [] [] [],
   c3_fact_merges_dedup_and_idempotent.2.2.2.1 c3Tele [] [] (by simp),
   c3_fact_merges_dedup_and_idempotent.2.2.2.2.1 [c3Tele] [] []
     (by simp [telemetryNatKeys]) (by simp) (fun id => by simp) (by simp),
   c3_fact_merges_dedup_and_idempotent.2.2.2.2.2 [c3Tele] [] []⟩

/-! ## C5: foreign-key resolution and the orphan policy -/

/-- C5 counterexample: a staged telemetry row whose procedure_id ("P1")
matches no row of fact_procedures is dropped by the INNER JOIN — the fact
store stays empty — rather than being loaded with a null key. -/
theorem c5_orphan_telemetry_dropped :
    load_telemetry_to_redshift [c3Tele]
      [{ procedure_key := 7, procedure_id := "P2" }] [] = [] := by
  decide

/-- C5 amended: for fact_procedures the orphan policy holds — dimension
keys are resolved from the matching current dimension rows, a missing
match yields a null key and the row is still loaded; for the telemetry
fact the staged row is dropped entirely when fact_procedures has no row
with its procedure_id, and otherwise takes the matched procedure_key. -/
theorem c5_fk_resolution_amended :
    (∀ (s : ProcStage) (R : List RobotKeyRow) (S : List SurgeonKeyRow)
       (F : List FacilityDim) (facts : List ProcFact),
       s.procedure_id ∉ facts.map ProcFact.procedure_id →
       R.filter (fun r => r.is_current && some r.robot_id == s.robot_id) = [] →
       S.filter (fun d => d.is_current && some d.surgeon_id == s.surgeon_id) = [] →
       F.filter (fun f => f.is_current && some f.facility_id == s.facility_id) = [] →
       loadFactProcedures [s] R S F facts = facts ++ [mkProcFact s none none none]) ∧
    (∀ (s : ProcStage) (R : List RobotKeyRow) (S : List SurgeonKeyRow)
       (F : List FacilityDim) (facts : List ProcFact) (r : RobotKeyRow)
       (sg : SurgeonKeyRow) (f : FacilityDim),
       s.procedure_id ∉ facts.map ProcFact.procedure_id →
       R.filter (fun r => r.is_current && some r.robot_id == s.robot_id) = [r] →
       S.filter (fun d => d.is_current && some d.surgeon_id == s.surgeon_id) = [sg] →
       F.filter (fun f => f.is_current && some f.facility_id == s.facility_id) = [f] →
       loadFactProcedures [s] R S F facts =
         facts ++ [mkProcFact s (some r.robot_key) (some sg.surgeon_key)
           (some f.facility_key)]) ∧
    (∀ (st : TelemetryStage) (fp : List ProcKeyRow) (facts : List TelemetryFact),
       fp.filter (fun p => some p.procedure_id == st.procedure_id) = [] →
       load_telemetry_to_redshift [st] fp facts = facts) ∧
    (∀ (st : TelemetryStage) (fp : List ProcKeyRow) (facts : List TelemetryFact)
       (p : ProcKeyRow),
       fp.filter (fun q => some q.procedure_id == st.procedure_id) = [p] →
       (p.procedure_key, st.sample_timestamp) ∉ telemetryNatKeys facts →
       load_telemetry_to_redshift [st] fp facts =
         facts ++ [mkTelemetryFact p.procedure_key st]) := by
  have hany_of_not_mem : ∀ (facts : List ProcFact) (s : ProcStage),
      s.procedure_id ∉ facts.map ProcFact.procedure_id →
      facts.any (fun fp => fp.procedure_id == s.procedure_id) = false := by
    intro facts s h
    rw [List.any_eq_false]
    intro fp hfp
    simp only [beq_iff_eq]
    intro he
    exact h (by simpa [List.mem_map] using ⟨fp, hfp, he⟩)
  refine ⟨?_, ?_, ?_, ?_⟩
  · intro s R S F facts hmem hR hS hF
    simp [loadFactProcedures, procInsertRows, hany_of_not_mem facts s hmem,
      resolveRobotKeys, resolveSurgeonKeys, resolveFacilityKeys, resolveKeys,
      hR, hS, hF]
  · intro s R S F facts r sg f hmem hR hS hF
    simp [loadFactProcedures, procInsertRows, hany_of_not_mem facts s hmem,
      resolveRobotKeys, resolveSurgeonKeys, resolveFacilityKeys, resolveKeys,
      hR, hS, hF]
  · intro st fp facts hfp
    simp [load_telemetry_to_redshift, telemetryInsertRows, hfp]
  · intro st fp facts p hfp hmem
    have hprop : ¬∃ f ∈ facts, f.procedure_key = p.procedure_key ∧
        f.sample_timestamp = st.sample_timestamp := by
      rintro ⟨f, hf, he1, he2⟩
      exact hmem (by simpa [telemetryNatKeys, List.mem_map, Prod.mk.injEq]
        using ⟨f, hf, he1, he2⟩)
    simp [load_telemetry_to_redshift, telemetryInsertRows, hfp, hprop]

/-- C5 amended, witnessed at concrete rows: an all-orphan procedure row is
loaded with three null keys; with one current match per dimension the
resolved keys are taken; an orphan telemetry row is dropped; a matched
telemetry row takes the joined procedure_key. -/
theorem c5_fk_resolution_amended_witness :
    loadFactProcedures [c3Proc] [] [] [] [] = [mkProcFact c3Proc none none none] ∧
    loadFactProcedures [c3Proc] [{ robot_key := 3, robot_id := "R1", is_current := true }]
        [{ surgeon_key := 4, surgeon_id := "S1", is_current := true }]
        [{ facility_key := 5, facility_id := "F1", is_current := true }] [] =
      [mkProcFact c3Proc (some 3) (some 4) (some 5)] ∧
    load_telemetry_to_redshift [c3Tele]
      [{ procedure_key := 7, procedure_id := "P2" }] [] = [] ∧
    load_telemetry_to_redshift [c3Tele]
        [{ procedure_key := 7, procedure_id := "P1" }] [] =
      [mkTelemetryFact 7 c3Tele] :=
  ⟨by simpa using (c5_fk_resolution_amended.1 c3Proc [] [] [] [] (by simp) rfl rfl rfl),
   by simpa using (c5_fk_resolution_amended.2.1 c3Proc
     [{ robot_key := 3, robot_id := "R1", is_current := true }]
     [{ surgeon_key := 4, surgeon_id := "S1", is_current := true }]
     [{ facility_key := 5, facility_id := "F1", is_current := true }] []
     { robot_key := 3, robot_id := "R1", is_current := true }
     { surgeon_key := 4, surgeon_id := "S1", is_current := true }
     { facility_key := 5, facility_id := "F1", is_current := true }
     (by simp) (by decide) (by decide) (by decide)),
   c5_fk_resolution_amended.2.2.1 c3Tele
     [{ procedure_key := 7, procedure_id := "P2" }] [] (by decide),
   by simpa using (c5_fk_resolution_amended.2.2.2 c3Tele
     [{ procedure_key := 7, procedure_id := "P1" }] []
     { procedure_key := 7, procedure_id := "P1" } (by decide)
     (by simp [telemetryNatKeys]))⟩

/-! ## Run orchestration (lambda_handler in both ETL functions) -/

/-- The invocation event of the RDS-to-Redshift handler (fields read at
rds_to_redshift_etl.py lines 479-481; absent etl_type defaults to full). -/
structure EtlEvent where
  etl_type : Option String
  start_date : Option String
  end_date : Option String
deriving Repr, DecidableEq

/-- The result dict the RDS-to-Redshift handler returns on success
(lines 483-488); records_loaded maps entity names to counts in insertion
order. -/
structure RunResult where
  status : String
  timestamp : Nat
  etl_type : String
  records_loaded : List (String × Nat)
deriving Repr, DecidableEq

/-- lambda_handler of rds_to_redshift_etl.py (lines 476-506). The three
loaders are passed as state transformers over an abstract warehouse state
σ (each Python loader commits its own transaction before returning and
rolls back on error, so an error leaves the state it received). The
try/except re-raises after noting the failure on the local dict, so the
error branch surfaces the raised error together with the state committed
so far; the local dict is discarded by the unwinding. -/
def rds_lambda_handler {σ : Type} (event : EtlEvent) (now : Nat)
    (loadS loadR : σ → Except String (σ × Nat))
    (loadP : Option String → Option String → σ → Except String (σ × Nat))
    (dw : σ) : σ × Except String RunResult :=
  let t := event.etl_type.getD "full"
  let base : RunResult :=
    { status := "success", timestamp := now, etl_type := t, records_loaded := [] }
  if t = "full" ∨ t = "dimensions" then
    match loadS dw with
    | .error e => (dw, .error e)
    | .ok (dw1, n1) =>
      match loadR dw1 with
      | .error e => (dw1, .error e)
      | .ok (dw2, n2) =>
        if t = "full" ∨ t = "procedures" then
          match loadP event.start_date event.end_date dw2 with
          | .error e => (dw2, .error e)
          | .ok (dw3, n3) =>
            (dw3, .ok { base with
              records_loaded := [("surgeons", n1), ("robots", n2), ("procedures", n3)] })
        else
          (dw2, .ok { base with
            records_loaded := [("surgeons", n1), ("robots", n2)] })
  else
    if t = "full" ∨ t = "procedures" then
      match loadP event.start_date event.end_date dw with
      | .error e => (dw, .error e)
      | .ok (dw1, n3) =>
        (dw1, .ok { base with records_loaded := [("procedures", n3)] })
    else
      (dw, .ok base)

/-- The result dict of the telemetry handler
(s3_telemetry_to_redshift.py lines 315-320). -/
structure TelemetryRunResult where
  status : String
  timestamp : Nat
  batch_date : String
  records_loaded : Nat
deriving Repr, DecidableEq

/-- lambda_handler of s3_telemetry_to_redshift.py (lines 306-333): one
entity, same try/except structure; proc stands for
process_telemetry_files together with everything it can raise. -/
def telemetry_lambda_handler (bd s3PrefixArg : Option String) (now : Nat)
    (defaultDate : String) (proc : String → String → Except String Nat) :
    Except String TelemetryRunResult :=
  let batch_date := bd.getD defaultDate
  let pre := s3PrefixArg.getD "telemetry/"
  match proc pre batch_date with
  | .ok n =>
    .ok { status := "success", timestamp := now, batch_date := batch_date,
          records_loaded := n }
  | .error e => .error e

/-- C6 counterexample: with the surgeons load succeeding (count 5) and the
robots load raising "boom", the invocation yields the raised error, not a
run result with status failed — the surgeons count is in the discarded
local dict, only the committed state (here 1) survives. -/
theorem c6_handler_raises_instead_of_returning :
    rds_lambda_handler (σ := Nat)
      { etl_type := some "full", start_date := none, end_date := none } 0
      (fun d => .ok (d + 1, 5)) (fun _ => .error "boom")
      (fun _ _ d => .ok (d, 0)) 0 =
    (1, Except.error "boom") := rfl

/-- C6 amended: when a load raises, the handler re-raises after recording
the failure locally, so the invocation yields the raised error rather than
a structured run result; the warehouse state committed by entities that
completed earlier in the same invocation is preserved, but their record
counts are not returned to the caller. The telemetry handler behaves the
same way for its single entity. -/
theorem c6_failure_propagation_amended :
    (∀ (σ : Type) (event : EtlEvent) (now : Nat)
       (loadS loadR : σ → Except String (σ × Nat))
       (loadP : Option String → Option String → σ → Except String (σ × Nat))
       (dw dw1 : σ) (n1 : Nat) (e : String),
       event.etl_type.getD "full" = "full" →
       loadS dw = .ok (dw1, n1) →
       loadR dw1 = .error e →
       rds_lambda_handler event now loadS loadR loadP dw = (dw1, .error e)) ∧
    (∀ (bd s3PrefixArg : Option String) (now : Nat) (defaultDate : String)
       (e : String) (proc : String → String → Except String Nat),
       proc (s3PrefixArg.getD "telemetry/") (bd.getD defaultDate) = .error e →
       telemetry_lambda_handler bd s3PrefixArg now defaultDate proc = .error e) := by
  constructor
  · intro σ event now loadS loadR loadP dw dw1 n1 e ht hS hR
    simp [rds_lambda_handler, ht, hS, hR]
  · intro bd s3PrefixArg now defaultDate e proc hp
    simp [telemetry_lambda_handler, hp]

/-- C6 amended, witnessed: the concrete failing invocation above, and a
telemetry invocation whose processing raises. -/
theorem c6_failure_propagation_amended_witness :
    rds_lambda_handler (σ := Nat)
      { etl_type := some "full", start_date := none, end_date := none } 3
      (fun d => .ok (d + 1, 5)) (fun _ => .error "boom")
      (fun _ _ d => .ok (d, 0)) 0 = (1, .error "boom") ∧
    telemetry_lambda_handler (some "20240101") none 3 "20240102"
      (fun _ _ => .error "listing failed") = .error "listing failed" :=
  ⟨c6_failure_propagation_amended.1 Nat
     { etl_type := some "full", start_date := none, end_date := none } 3
     (fun d => .ok (d + 1, 5)) (fun _ => .error "boom")
     (fun _ _ d => .ok (d, 0)) 0 1 5 "boom" rfl rfl rfl,
   c6_failure_propagation_amended.2 (some "20240101") none 3 "20240102"
     "listing failed" (fun _ _ => .error "listing failed") rfl⟩

/-! ## Telemetry transform (s3_telemetry_to_redshift.py lines 54-167) -/

/-- A wall-clock timestamp, as the warehouse sees it after parsing. -/
structure Timestamp where
  year : Nat
  month : Nat
  day : Nat
  hour : Nat
  minute : Nat
deriving Repr, DecidableEq

/-- A timestamp field as it arrives in a telemetry JSON record: the raw
string together with the outcome of datetime.fromisoformat on it after the
Z-suffix replacement (none when that call raises). -/
structure RawTs where
  raw : String
  parsed : Option Timestamp
deriving Repr, DecidableEq

/-- A nested x/y/z group (arm_position, arm_rotation). -/
structure ArmVec where
  x : Option Int
  y : Option Int
  z : Option Int
deriving Repr, DecidableEq

/-- The nested system_metrics group. -/
structure SystemMetrics where
  temperature : Option Int
  motor_current : Option Int
  network_latency_ms : Option Int
  video_fps : Option Int
deriving Repr, DecidableEq

/-- A raw telemetry JSON record: every field optional at the source
boundary; decimals scaled to integers. -/
structure RawTelemetry where
  procedure_id : Option String
  timestamp : Option RawTs
  arm_position : Option ArmVec
  arm_rotation : Option ArmVec
  force_feedback : Option Int
  tool_type : Option String
  tool_active : Option Bool
  camera_zoom : Option Int
  lighting_level : Option Int
  system_metrics : Option SystemMetrics
deriving Repr, DecidableEq

/-- record.get(group, \x7b\x7d).get(field): none when the group is absent. -/
def getVec (g : Option ArmVec) (f : ArmVec → Option Int) : Option Int :=
  match g with
  | none => none
  | some v => f v

/-- record.get('system_metrics', \x7b\x7d).get(field). -/
def getMetrics (g : Option SystemMetrics) (f : SystemMetrics → Option Int) :
    Option Int :=
  match g with
  | none => none
  | some v => f v

/-- The flat record the transform builds (the dict at lines 142-161);
tool_active is serialized as the string true/false, every other optional
field stays null when absent. -/
structure TransformedTelemetry where
  procedure_id : Option String
  timestamp_key : Nat
  sample_timestamp : String
  arm_position_x : Option Int
  arm_position_y : Option Int
  arm_position_z : Option Int
  arm_rotation_x : Option Int
  arm_rotation_y : Option Int
  arm_rotation_z : Option Int
  force_feedback : Option Int
  tool_type : Option String
  tool_active : String
  camera_zoom : Option Int
  lighting_level : Option Int
  system_temperature : Option Int
  motor_current : Option Int
  network_latency_ms : Option Int
  video_fps : Option Int
deriving Repr, DecidableEq

/-- The dict literal of lines 142-161, for a record whose timestamp
parsed to ts. -/
def buildTransformed (record : RawTelemetry) (t : RawTs) (ts : Timestamp) :
    TransformedTelemetry :=
  { procedure_id := record.procedure_id
    timestamp_key := ts.hour * 10000 + ts.minute * 100
    sample_timestamp := t.raw
    arm_position_x := getVec record.arm_position ArmVec.x
    arm_position_y := getVec record.arm_position ArmVec.y
    arm_position_z := getVec record.arm_position ArmVec.z
    arm_rotation_x := getVec record.arm_rotation ArmVec.x
    arm_rotation_y := getVec record.arm_rotation ArmVec.y
    arm_rotation_z := getVec record.arm_rotation ArmVec.z
    force_feedback := record.force_feedback
    tool_type := record.tool_type
    tool_active := if record.tool_active.getD false then "true" else "false"
    camera_zoom := record.camera_zoom
    lighting_level := record.lighting_level
    system_temperature := getMetrics record.system_metrics SystemMetrics.temperature
    motor_current := getMetrics record.system_metrics SystemMetrics.motor_current
    network_latency_ms := getMetrics record.system_metrics SystemMetrics.network_latency_ms
    video_fps := getMetrics record.system_metrics SystemMetrics.video_fps }

/-- transform_telemetry_record (lines 130-167): a record with an absent or
falsy (empty) timestamp returns None; a timestamp fromisoformat raises on
is caught by the handler, which also returns None; otherwise the flat dict
is returned. -/
def transform_telemetry_record (record : RawTelemetry) :
    Option TransformedTelemetry :=
  match record.timestamp with
  | none => none
  | some t =>
    if t.raw = "" then none
    else
      match t.parsed with
      | none => none
      | some ts => some (buildTransformed record t ts)

/-- An accepted transform output comes from a present, non-empty,
parsable timestamp and equals the dict literal for it. -/
theorem transform_eq_some {record : RawTelemetry} {out : TransformedTelemetry}
    (h : transform_telemetry_record record = some out) :
    ∃ t ts, record.timestamp = some t ∧ t.raw ≠ "" ∧ t.parsed = some ts ∧
      out = buildTransformed record t ts := by
  unfold transform_telemetry_record at h
  split at h
  · exact absurd h (by simp)
  · rename_i t hts
    split at h
    · exact absurd h (by simp)
    · rename_i hr
      split at h
      · exact absurd h (by simp)
      · rename_i ts hp
        simp only [Option.some.injEq] at h
        exact ⟨t, ts, hts, hr, hp, h.symm⟩

/-- The payload of one S3 object: a single JSON record, an array of
records, or something get/parse raises on (the per-file try skips it). -/
inductive TelemetryFileData where
  | single (r : RawTelemetry)
  | array (rs : List RawTelemetry)
  | unreadable
deriving Repr, DecidableEq

/-- The record list a file contributes (lines 86-92), none when reading or
parsing the file raises. -/
def fileRecords : TelemetryFileData → Option (List RawTelemetry)
  | .single r => some [r]
  | .array rs => some rs
  | .unreadable => none

/-- An object of the raw telemetry bucket. -/
structure S3Object where
  key : String
  data : TelemetryFileData
deriving Repr, DecidableEq

/-- String prefix test, computed on the character lists so the kernel can
evaluate it. -/
def strHasPre (pre k : String) : Bool :=
  pre.data.isPrefixOf k.data

/-- String suffix test, computed on the character lists. -/
def strHasSuffix (sfx k : String) : Bool :=
  sfx.data.isSuffixOf k.data

/-- list_objects_v2 with MaxKeys (lines 62-66): the keys matching the
requested key prefix, truncated to at most maxKeys entries. -/
def listObjectsV2 (objects : List S3Object) (pre : String) (maxKeys : Nat) :
    List S3Object :=
  (objects.filter (fun o => strHasPre pre o.key)).take maxKeys

/-- The .json objects of the capped listing (line 72). -/
def jsonFiles (objects : List S3Object) (pre : String) : List S3Object :=
  (listObjectsV2 objects pre 1000).filter (fun o => strHasSuffix ".json" o.key)

/-- The files one invocation actually reads (line 82: files[:100]). -/
def cappedFiles (objects : List S3Object) (pre : String) : List S3Object :=
  (jsonFiles objects pre).take 100

/-- The body of the per-file loop (lines 82-104): an unreadable file is
skipped by the per-file except, a readable one appends the accepted
transforms of its records and bumps files_processed. Rejected records are
skipped with no accounting. -/
def processFold (acc : List TransformedTelemetry × Nat) (o : S3Object) :
    List TransformedTelemetry × Nat :=
  match fileRecords o.data with
  | none => acc
  | some rs => (acc.1 ++ rs.filterMap transform_telemetry_record, acc.2 + 1)

/-- process_telemetry_files, transform stage (lines 54-109): fold the
per-file loop over the capped file list; returns the staged records
together with files_processed. -/
def process_telemetry_files (objects : List S3Object) (pre : String) :
    List TransformedTelemetry × Nat :=
  (cappedFiles objects pre).foldl processFold ([], 0)

/-- A telemetry record with no timestamp field. -/
def c7Bad : RawTelemetry :=
  { procedure_id := some "P9", timestamp := none, arm_position := none,
    arm_rotation := none, force_feedback := none, tool_type := none,
    tool_active := none, camera_zoom := none, lighting_level := none,
    system_metrics := none }

/-- A well-formed telemetry record in the same batch. -/
def c7Good : RawTelemetry :=
  { procedure_id := some "P9",
    timestamp := some { raw := "2024-01-01T10:30:00Z",
                        parsed := some ⟨2024, 1, 1, 10, 30⟩ },
    arm_position := some { x := some 1, y := some 2, z := some 3 },
    arm_rotation := none, force_feedback := some 5, tool_type := some "scalpel",
    tool_active := some true, camera_zoom := none, lighting_level := none,
    system_metrics := none }

/-- C7 counterexample: processing a batch that contains the malformed
record next to the well-formed one produces exactly the same staged
records and the same files_processed count as processing the batch without
it — every output the code maintains is identical, so no rejection counter
is incremented anywhere. -/
theorem c7_no_rejection_counter :
    process_telemetry_files
        [{ key := "telemetry/a.json", data := .array [c7Bad, c7Good] }]
        "telemetry/" =
      process_telemetry_files
        [{ key := "telemetry/a.json", data := .array [c7Good] }] "telemetry/" ∧
    transform_telemetry_record c7Bad = none := by
  constructor
  · decide
  · rfl

/-- C7 amended: a record lacking the timestamp field is rejected (the
transform returns None) and contributes nothing to the staged output,
while the staged output of a batch is exactly the accepted transforms of
its records in order — well-formed siblings are staged and the batch is
not aborted. No rejection counter exists: rejected records are observable
only as the difference between input and staged counts. -/
theorem c7_missing_timestamp_rejected_batch_continues :
    (∀ r : RawTelemetry, r.timestamp = none →
       transform_telemetry_record r = none) ∧
    (∀ (k : String) (rs : List RawTelemetry) (pre : String),
       strHasPre pre k = true → strHasSuffix ".json" k = true →
       process_telemetry_files [{ key := k, data := .array rs }] pre =
         (rs.filterMap transform_telemetry_record, 1)) := by
  constructor
  · intro r h
    unfold transform_telemetry_record
    rw [h]
  · intro k rs pre hpre hjson
    simp [process_telemetry_files, cappedFiles, jsonFiles, listObjectsV2,
      processFold, hpre, hjson, fileRecords]

/-- C7 amended, witnessed on the concrete two-record batch: the staged
output is exactly the transform of the well-formed record. -/
theorem c7_missing_timestamp_rejected_witness :
    transform_telemetry_record c7Bad = none ∧
    process_telemetry_files
        [{ key := "telemetry/a.json", data := .array [c7Bad, c7Good] }]
        "telemetry/" =
      ([c7Bad, c7Good].filterMap transform_telemetry_record, 1) :=
  ⟨c7_missing_timestamp_rejected_batch_continues.1 c7Bad rfl,
   c7_missing_timestamp_rejected_batch_continues.2 "telemetry/a.json"
     [c7Bad, c7Good] "telemetry/" (by decide) (by decide)⟩

/-- The files_processed component of the fold grows by at most one per
file. -/
theorem foldl_processFold_count (files : List S3Object)
    (acc : List TransformedTelemetry × Nat) :
    (files.foldl processFold acc).2 ≤ acc.2 + files.length := by
  induction files generalizing acc with
  | nil => simp
  | cons o fs ih =>
    have hstep : (processFold acc o).2 ≤ acc.2 + 1 := by
      unfold processFold
      cases fileRecords o.data <;> simp
    calc (List.foldl processFold (processFold acc o) fs).2
        ≤ (processFold acc o).2 + fs.length := ih _
      _ ≤ acc.2 + 1 + fs.length := by omega
      _ = acc.2 + (o :: fs).length := by simp [List.length_cons]; omega

/-- C9: the object listing is truncated to 1000 keys, at most 100 files
are read per invocation (files_processed never exceeds 100), and — given
distinct object keys — a .json file beyond the 100-file cap is not among
the files the invocation reads. -/
theorem c9_file_cap :
    (∀ (objects : List S3Object) (pre : String),
       (listObjectsV2 objects pre 1000).length ≤ 1000) ∧
    (∀ (objects : List S3Object) (pre : String),
       (cappedFiles objects pre).length ≤ 100) ∧
    (∀ (objects : List S3Object) (pre : String),
       (process_telemetry_files objects pre).2 ≤ 100) ∧
    (∀ (objects : List S3Object) (pre : String) (o : S3Object),
       (objects.map S3Object.key).Nodup →
       o ∈ (jsonFiles objects pre).drop 100 →
       o ∉ cappedFiles objects pre) := by
  have hcap : ∀ (objects : List S3Object) (pre : String),
      (cappedFiles objects pre).length ≤ 100 := by
    intro objects pre
    unfold cappedFiles
    rw [List.length_take]
    exact min_le_left _ _
  refine ⟨?_, hcap, ?_, ?_⟩
  · intro objects pre
    unfold listObjectsV2
    rw [List.length_take]
    exact min_le_left _ _
  · intro objects pre
    have h := foldl_processFold_count (cappedFiles objects pre) ([], 0)
    unfold process_telemetry_files
    calc ((cappedFiles objects pre).foldl processFold ([], 0)).2
        ≤ 0 + (cappedFiles objects pre).length := h
      _ ≤ 100 := by have := hcap objects pre; omega
  · intro objects pre o hnd hmem hc
    have hobj : objects.Nodup := hnd.of_map
    have hjson : (jsonFiles objects pre).Nodup := by
      unfold jsonFiles listObjectsV2
      exact ((List.filter_sublist _).nodup
        (((List.take_sublist _ _)).nodup ((List.filter_sublist _).nodup hobj)))
    exact List.disjoint_take_drop hjson (le_refl 100) hc hmem

/-- C9, witnessed: a two-file bucket with distinct keys satisfies every
hypothesis; the caps hold there. -/
theorem c9_file_cap_witness :
    (listObjectsV2
      [{ key := "telemetry/a.json", data := .array [c7Good] },
       { key := "telemetry/b.json", data := .unreadable }] "telemetry/" 1000).length ≤ 1000 ∧
    (cappedFiles
      [{ key := "telemetry/a.json", data := .array [c7Good] },
       { key := "telemetry/b.json", data := .unreadable }] "telemetry/").length ≤ 100 ∧
    (process_telemetry_files
      [{ key := "telemetry/a.json", data := .array [c7Good] },
       { key := "telemetry/b.json", data := .unreadable }] "telemetry/").2 ≤ 100 ∧
    (∀ o : S3Object,
       o ∈ (jsonFiles
         [{ key := "telemetry/a.json", data := .array [c7Good] },
          { key := "telemetry/b.json", data := .unreadable }] "telemetry/").drop 100 →
       o ∉ cappedFiles
         [{ key := "telemetry/a.json", data := .array [c7Good] },
          { key := "telemetry/b.json", data := .unreadable }] "telemetry/") :=
  ⟨c9_file_cap.1 _ "telemetry/",
   c9_file_cap.2.1 _ "telemetry/",
   c9_file_cap.2.2.1 _ "telemetry/",
   fun o hmem => c9_file_cap.2.2.2 _ "telemetry/" o (by decide) hmem⟩

/-! ## Procedure fact extraction (rds_to_redshift_etl.py lines 339-369) -/

/-- A row of the operational surgical_procedures table, restricted to the
columns the fact extraction reads. -/
structure SurgicalProcedure where
  procedure_id : String
  robot_id : Option String
  surgeon_id : Option String
  start_time : Timestamp
  end_time : Option Timestamp
  procedure_type : String
  procedure_category : String
  patient_id : String
  patient_age : Option Nat
  patient_gender : Option String
  duration_minutes : Option Nat
  complexity_score : Option Nat
  status : String
deriving Repr, DecidableEq

/-- A row of procedure_outcomes, restricted to the columns the extraction
reads. -/
structure ProcOutcome where
  success_status : String
  blood_loss_ml : Option Nat
  complication_level : Option String
  hospital_stay_days : Option Nat
  patient_satisfaction_score : Option Nat
  readmission_30day : Option Bool
deriving Repr, DecidableEq

/-- The select list of the fact extraction (lines 340-364): one staged row
per procedure, with the facility id of the LEFT JOINed robot and the
fields of the LEFT JOINed outcome (null throughout when unmatched);
date keys as YYYYMMDD, time keys as hour x 10000 + minute x 100. -/
def extractProcedureRow (p : SurgicalProcedure) (fid : Option String)
    (o : Option ProcOutcome) : ProcStage :=
  { procedure_id := p.procedure_id
    robot_id := p.robot_id
    surgeon_id := p.surgeon_id
    facility_id := fid
    start_date_key := p.start_time.year * 10000 + p.start_time.month * 100 +
      p.start_time.day
    start_time_key := p.start_time.hour * 10000 + p.start_time.minute * 100
    end_date_key := p.end_time.map (fun e => e.year * 10000 + e.month * 100 + e.day)
    end_time_key := p.end_time.map (fun e => e.hour * 10000 + e.minute * 100)
    procedure_type := p.procedure_type
    procedure_category := p.procedure_category
    patient_id := p.patient_id
    patient_age := p.patient_age
    patient_gender := p.patient_gender
    duration_minutes := p.duration_minutes
    complexity_score := p.complexity_score
    success_status := o.map ProcOutcome.success_status
    blood_loss_ml := o.bind ProcOutcome.blood_loss_ml
    complication_level := o.bind ProcOutcome.complication_level
    hospital_stay_days := o.bind ProcOutcome.hospital_stay_days
    patient_satisfaction_score := o.bind ProcOutcome.patient_satisfaction_score
    readmission_30day := o.bind ProcOutcome.readmission_30day
    status := p.status }

/-- C8: a record whose timestamp parses gets timestamp_key equal to
hour x 10000 + minute x 100 of it; the bucket is a function of the
timestamp field alone (determinism); and the procedure extraction computes
its start and end time keys by the same formula. -/
theorem c8_time_of_day_bucket :
    (∀ (r : RawTelemetry) (t : RawTs) (ts : Timestamp),
       r.timestamp = some t → t.raw ≠ "" → t.parsed = some ts →
       (transform_telemetry_record r).map TransformedTelemetry.timestamp_key =
         some (ts.hour * 10000 + ts.minute * 100)) ∧
    (∀ r1 r2 : RawTelemetry, r1.timestamp = r2.timestamp →
       (transform_telemetry_record r1).map TransformedTelemetry.timestamp_key =
         (transform_telemetry_record r2).map TransformedTelemetry.timestamp_key) ∧
    (∀ (p : SurgicalProcedure) (fid : Option String) (o : Option ProcOutcome),
       (extractProcedureRow p fid o).start_time_key =
         p.start_time.hour * 10000 + p.start_time.minute * 100 ∧
       (extractProcedureRow p fid o).end_time_key =
         p.end_time.map (fun e => e.hour * 10000 + e.minute * 100)) := by
  refine ⟨?_, ?_, ?_⟩
  · intro r t ts h1 h2 h3
    simp [transform_telemetry_record, h1, h2, h3, buildTransformed]
  · intro r1 r2 h
    unfold transform_telemetry_record
    rw [h]
    cases hts : r2.timestamp with
    | none => rfl
    | some t =>
      by_cases hr : t.raw = ""
      · simp [hr]
      · cases hp : t.parsed with
        | none => simp [hr, hp]
        | some ts => simp [hr, hp, buildTransformed]
  · intro p fid o
    exact ⟨rfl, rfl⟩

/-- A concrete operational procedure row. -/
def c8Proc : SurgicalProcedure :=
  { procedure_id := "P3", robot_id := some "R1", surgeon_id := some "S1",
    start_time := ⟨2024, 1, 2, 14, 45⟩, end_time := some ⟨2024, 1, 2, 16, 5⟩,
    procedure_type := "t", procedure_category := "c", patient_id := "PAT3",
    patient_age := some 41, patient_gender := some "M",
    duration_minutes := some 80, complexity_score := some 5,
    status := "completed" }

/-- C8, witnessed: the 10:30 telemetry sample gets bucket 103000, the
bucket agrees between two records sharing the timestamp, and the 14:45
procedure start gets bucket 144500 with end bucket 160500. -/
theorem c8_time_of_day_bucket_witness :
    (transform_telemetry_record c7Good).map TransformedTelemetry.timestamp_key =
      some 103000 ∧
    (transform_telemetry_record c7Good).map TransformedTelemetry.timestamp_key =
      (transform_telemetry_record
        { c7Bad with timestamp := c7Good.timestamp }).map
          TransformedTelemetry.timestamp_key ∧
    (extractProcedureRow c8Proc (some "F1") none).start_time_key = 144500 ∧
    (extractProcedureRow c8Proc (some "F1") none).end_time_key = some 160500 :=
  ⟨by simpa using (c8_time_of_day_bucket.1 c7Good
     { raw := "2024-01-01T10:30:00Z", parsed := some ⟨2024, 1, 1, 10, 30⟩ }
     ⟨2024, 1, 1, 10, 30⟩ rfl (by decide) rfl),
   c8_time_of_day_bucket.2.1 c7Good { c7Bad with timestamp := c7Good.timestamp } rfl,
   by simpa using (c8_time_of_day_bucket.2.2 c8Proc (some "F1") none).1,
   by simpa using (c8_time_of_day_bucket.2.2 c8Proc (some "F1") none).2⟩

/-- C10: in every accepted transform output, tool_active is the string
true when the input tool_active is truthy and the string false otherwise —
in particular an absent tool_active is staged as false — while the other
optional scalar and nested fields map to null when absent. -/
theorem c10_tool_active_policy :
    ∀ (r : RawTelemetry) (out : TransformedTelemetry),
      transform_telemetry_record r = some out →
      (out.tool_active = if r.tool_active.getD false then "true" else "false") ∧
      (r.tool_active = none → out.tool_active = "false") ∧
      (r.tool_active = some false → out.tool_active = "false") ∧
      (r.tool_active = some true → out.tool_active = "true") ∧
      (r.force_feedback = none → out.force_feedback = none) ∧
      (r.tool_type = none → out.tool_type = none) ∧
      (r.camera_zoom = none → out.camera_zoom = none) ∧
      (r.lighting_level = none → out.lighting_level = none) ∧
      (r.arm_position = none →
        out.arm_position_x = none ∧ out.arm_position_y = none ∧
        out.arm_position_z = none) ∧
      (r.system_metrics = none →
        out.system_temperature = none ∧ out.motor_current = none ∧
        out.network_latency_ms = none ∧ out.video_fps = none) := by
  intro r out h
  obtain ⟨t, ts, -, -, -, rfl⟩ := transform_eq_some h
  refine ⟨rfl, ?_, ?_, ?_, ?_, ?_, ?_, ?_, ?_, ?_⟩ <;>
    intro hf <;> simp [buildTransformed, getVec, getMetrics, hf]

/-- A record with a parsable timestamp and every optional field absent. -/
def c10Rec : RawTelemetry := { c7Bad with timestamp := c7Good.timestamp }

/-- C10, witnessed: with every optional field absent, the staged row has
tool_active false (the string) while the sibling optional fields are null;
with tool_active present and true, the staged row has the string true. -/
theorem c10_tool_active_policy_witness :
    ((transform_telemetry_record c10Rec).map TransformedTelemetry.tool_active =
      some "false") ∧
    ((transform_telemetry_record c10Rec).map TransformedTelemetry.force_feedback =
      some none) ∧
    ((transform_telemetry_record c10Rec).map TransformedTelemetry.arm_position_x =
      some none) ∧
    ((transform_telemetry_record c7Good).map TransformedTelemetry.tool_active =
      some "true") := by
  have h1 := c10_tool_active_policy c10Rec
    (buildTransformed c10Rec
      { raw := "2024-01-01T10:30:00Z", parsed := some ⟨2024, 1, 1, 10, 30⟩ }
      ⟨2024, 1, 1, 10, 30⟩) rfl
  have h2 := c10_tool_active_policy c7Good
    (buildTransformed c7Good
      { raw := "2024-01-01T10:30:00Z", parsed := some ⟨2024, 1, 1, 10, 30⟩ }
      ⟨2024, 1, 1, 10, 30⟩) rfl
  refine ⟨?_, ?_, ?_, ?_⟩
  · have := h1.2.1 rfl
    simpa [transform_telemetry_record, c10Rec, c7Bad, c7Good] using this
  · have := h1.2.2.2.2.1 rfl
    simpa [transform_telemetry_record, c10Rec, c7Bad, c7Good] using this
  · have := (h1.2.2.2.2.2.2.2.2.1 rfl).1
    simpa [transform_telemetry_record, c10Rec, c7Bad, c7Good] using this
  · have := h2.2.2.2.1 rfl
    simpa [transform_telemetry_record, c7Good] using this
